import Mathlib

/-!
Verification of the event-dispatching core of vkwave's easy-bot layer
(src/vkwave/bots/easy/easy_bot.py) against its natural-language spec.

Shallow embedding: pure values model Python objects, explicit state
passing models mutation, traces of actions model awaited calls, and a
fresh-id allocator models object identity.  Python's built-in set is
modelled by an arbitrary iteration function constrained to the set
contract (duplicate-free output, same membership as the input).
-/

namespace VKWave

/-- Event type tags used by the bot framework (vkwave.types.bot_events).
Only MESSAGE_NEW is used by easy_bot; other tags are kept abstract. -/
inductive BotEventType where
  | MESSAGE_NEW
  | MESSAGE_REPLY
  | CHAT_ACTION
  | other (tag : String)
deriving DecidableEq, Repr

/-- The message carried inside a MESSAGE_NEW update (the fields easy_bot
touches: peer_id for answer, text for text filters). -/
structure Message where
  peer_id : Int
  text : String
deriving DecidableEq, Repr

/-- The inner object of a raw update: event.object.object in the source. -/
structure UpdateInner where
  message : Message
deriving DecidableEq, Repr

/-- A raw update as delivered by the long-poll extension: event.object in
the source, with its type discriminator and inner object. -/
structure RawUpdate where
  type : BotEventType
  object : UpdateInner
deriving DecidableEq, Repr

/-- BotEvent (vkwave.bots.core.dispatching.events.base): the envelope a
callback receives. The api_ctx field is the handle to the execution
context, modelled by its identity. -/
structure BotEvent where
  object : RawUpdate
  api_ctx : Nat
deriving DecidableEq, Repr

/-- SimpleBotEvent.__init__ from the source: the subclass constructor
calls super().__init__(event.object, event.api_ctx), so the wrapped
event is built from exactly the original object and api context. -/
def SimpleBotEvent (event : BotEvent) : BotEvent :=
  { object := event.object, api_ctx := event.api_ctx }

/-- One messages.send call as issued by SimpleBotEvent.answer: the full
argument record the source passes to self.api_ctx.messages.send. -/
structure SendMessageCall where
  domain : Option String
  lat : Option Int
  long : Option Int
  attachment : Option String
  reply_to : Option Int
  forward_messages : Option (List Int)
  sticker_id : Option Int
  group_id : Option Int
  keyboard : Option String
  payload : Option String
  dont_parse_links : Option Bool
  disable_mentions : Option Bool
  peer_id : Int
  message : Option String
  random_id : Int
deriving DecidableEq, Repr

/-- SimpleBotEvent.answer from the source: returns the list of
messages.send calls it performs (exactly one, with peer_id taken from
self.object.object.message.peer_id and random_id fixed to 0). -/
def SimpleBotEvent.answer (self : BotEvent)
    (message : Option String) (keyboard : Option String)
    (attachment : Option String) (payload : Option String)
    (forward_messages : Option (List Int)) (dont_parse_links : Option Bool)
    (disable_mentions : Option Bool) (sticker_id : Option Int)
    (domain : Option String) (lat : Option Int) (long : Option Int)
    (reply_to : Option Int) (group_id : Option Int) : List SendMessageCall :=
  [{ domain := domain, lat := lat, long := long, attachment := attachment,
     reply_to := reply_to, forward_messages := forward_messages,
     sticker_id := sticker_id, group_id := group_id, keyboard := keyboard,
     payload := payload, dont_parse_links := dont_parse_links,
     disable_mentions := disable_mentions,
     peer_id := self.object.object.message.peer_id,
     message := message, random_id := 0 }]

/-- An awaitable value, as returned by a Python coroutine function before
it is awaited. -/
structure Awaitable (α : Type) where
  val : α
deriving Repr

/-- Awaiting an awaitable yields its value. -/
def awaitValue {α : Type} (a : Awaitable α) : α :=
  a.val

/-- A user callback, in one of the two shapes the source distinguishes via
inspect.iscoroutinefunction: a plain synchronous function or a coroutine
function returning an awaitable. -/
inductive UserFunc (α : Type) where
  | sync (f : BotEvent → α)
  | coroutine (f : BotEvent → Awaitable α)

/-- inspect.iscoroutinefunction as applied to a user callback. -/
def iscoroutinefunction {α : Type} : UserFunc α → Bool
  | .sync _ => false
  | .coroutine _ => true

/-- SimpleLongPollBot.SimpleBotCallback: the adapter wrapped around every
user callback at registration time (message_handler wraps func in
SimpleBotCallback before attaching it to the record). -/
structure SimpleBotCallback (α : Type) where
  func : UserFunc α

/-- SimpleBotCallback.execute from the source: wraps the incoming event
into a SimpleBotEvent, then awaits the user function if it is a
coroutine function and calls it directly otherwise; either way the plain
result value is returned. -/
def SimpleBotCallback.execute {α : Type} (self : SimpleBotCallback α)
    (event : BotEvent) : α :=
  let new_event := SimpleBotEvent event
  match self.func with
  | .coroutine f => awaitValue (f new_event)
  | .sync f => f new_event

/-- A filter on events. Modelled from the spec: the router/filter code is
not under src; the spec gives event-type filters exact-match semantics
against the event's type tag, and all other built-in filters are
event predicates, carried here as an opaque test function. -/
inductive Filter where
  | eventType (t : BotEventType)
  | custom (test : BotEvent → Bool)

/-- Evaluation of one filter on an event. Modelled from the spec:
an event-type filter is exact match against the event's type tag; a
custom filter applies its predicate. -/
def Filter.check (f : Filter) (ev : BotEvent) : Bool :=
  match f with
  | .eventType t => decide (ev.object.type = t)
  | .custom test => test ev

/-- A handler record under construction or readied. Modelled from the
spec: the registration surface is new_handler, with_filters, handle,
ready, register; a record is an ordered filter list plus a callback, and
carries a readied flag set by ready(). -/
structure HandlerRecord (α : Type) where
  filters : List Filter
  callback : Option (SimpleBotCallback α)
  readied : Bool

/-- Modelled from the spec: new_handler() returns a fresh builder record
with no filters, no callback, not yet readied. -/
def HandlerRegistrar.new (α : Type) : HandlerRecord α :=
  { filters := [], callback := none, readied := false }

/-- Modelled from the spec: with_filters appends the given filters to the
record's ordered filter list. -/
def HandlerRecord.with_filters {α : Type} (r : HandlerRecord α)
    (fs : List Filter) : HandlerRecord α :=
  { r with filters := r.filters ++ fs }

/-- Modelled from the spec: handle attaches the callback to the record. -/
def HandlerRecord.handle {α : Type} (r : HandlerRecord α)
    (cb : SimpleBotCallback α) : HandlerRecord α :=
  { r with callback := some cb }

/-- Modelled from the spec: ready finalizes the record, after which it is
immutable and may be registered. -/
def HandlerRecord.ready {α : Type} (r : HandlerRecord α) : HandlerRecord α :=
  { r with readied := true }

/-- Modelled from the spec: register appends the record to the router's
ordered sequence and fails (returns none) if the record has not been
readied. -/
def HandlerRegistrar.register {α : Type} (handlers : List (HandlerRecord α))
    (r : HandlerRecord α) : Option (List (HandlerRecord α)) :=
  if r.readied then some (handlers ++ [r]) else none

/-- The record built by the body of SimpleLongPollBot.message_handler's
decorator, line by line from the source: registrar.new(), then
record.with_filters(*filters), then
record.filters.append(EventTypeFilter(BotEventType.MESSAGE_NEW)), then
record.handle(SimpleBotCallback(func)), then record.ready(). -/
def message_handler_build {α : Type} (filters : List Filter)
    (func : UserFunc α) : HandlerRecord α :=
  let record := HandlerRegistrar.new α
  let record := record.with_filters filters
  let record := { record with
    filters := record.filters ++ [Filter.eventType BotEventType.MESSAGE_NEW] }
  let record := record.handle (SimpleBotCallback.mk func)
  record.ready

/-- message_handler's registration effect from the source: the readied
record built by the decorator body is passed to registrar.register
against the router's current handler list. -/
def message_handler {α : Type} (handlers : List (HandlerRecord α))
    (filters : List Filter) (func : UserFunc α) :
    Option (List (HandlerRecord α)) :=
  HandlerRegistrar.register handlers (message_handler_build filters func)

/-- The decorator returned by message_handler, from the source: it
registers the handler as a side effect and then returns func itself. -/
def message_handler_decorator {α : Type} (handlers : List (HandlerRecord α))
    (filters : List Filter) (func : UserFunc α) :
    Option (List (HandlerRecord α)) × UserFunc α :=
  (message_handler handlers filters func, func)

/-- Whether a record's whole filter chain passes on an event (AND
semantics). Modelled from the spec. -/
def recordMatches {α : Type} (r : HandlerRecord α) (ev : BotEvent) : Bool :=
  r.filters.all (fun f => f.check ev)

/-- Modelled from the spec: find_match iterates the router's ordered
sequence and returns the first record whose entire filter chain passes. -/
def find_match {α : Type} (records : List (HandlerRecord α))
    (ev : BotEvent) : Option (HandlerRecord α) :=
  records.find? (fun r => recordMatches r ev)

/-- Observable actions awaited by SimpleLongPollBot.run. -/
inductive RunAction where
  | cache_potential_tokens
  | lp_start
deriving DecidableEq, Repr

/-- Observable credential/polling state of one bot instance, threaded
through run's awaited calls. -/
structure DispatcherState where
  potential_tokens_cached : Bool
  polling_started : Bool
deriving DecidableEq, Repr

/-- Modelled from the spec: Dispatcher.cache_potential_tokens is the
one-shot credential-resolution pass; its body is outside src, so only
its observable effect is modelled: it completes credential resolution
and emits its action. -/
def Dispatcher.cache_potential_tokens (s : DispatcherState) :
    DispatcherState × List RunAction :=
  ({ s with potential_tokens_cached := true }, [RunAction.cache_potential_tokens])

/-- Modelled from the spec: BotLongpollExtension.start begins the poll
loop; its body is outside src, so only its observable effect is
modelled: it enters polling and emits its action. -/
def BotLongpollExtension.start (s : DispatcherState) :
    DispatcherState × List RunAction :=
  ({ s with polling_started := true }, [RunAction.lp_start])

/-- SimpleLongPollBot.run from the source: it awaits
dispatcher.cache_potential_tokens() to completion, then awaits
self._lp.start(); the state is threaded through in that order and the
action trace records the order of the awaited calls. -/
def SimpleLongPollBot.run (s : DispatcherState) :
    DispatcherState × List RunAction :=
  let r1 := Dispatcher.cache_potential_tokens s
  let r2 := BotLongpollExtension.start r1.1
  (r2.1, r1.2 ++ r2.2)

/-- One SimpleLongPollBot instance at the object-identity level: each
collaborator created by __init__ is represented by the fresh id the
allocator handed out for it, and the router's handler list by the ids of
the registered handler records. -/
structure SimpleLongPollBotS where
  token_storage : Nat
  dispatcher : Nat
  lp_extension : Nat
  router : Nat
  handlers : List Nat
deriving DecidableEq, Repr

/-- SimpleLongPollBot.__init__ from the source, at the identity level:
the constructor creates a fresh TokenStorage, a fresh Dispatcher, a
fresh BotLongpollExtension and a fresh DefaultRouter for this instance
(four fresh objects from the allocator), with an initially empty handler
list; returns the instance and the advanced allocator. -/
def SimpleLongPollBot.init (fresh : Nat) : SimpleLongPollBotS × Nat :=
  ({ token_storage := fresh, dispatcher := fresh + 1,
     lp_extension := fresh + 2, router := fresh + 3, handlers := [] },
   fresh + 4)

/-- A sequence of bot instances built by consecutive __init__ calls on
one allocator, as a program constructing a base bot and clones does. -/
def mkBots : Nat → Nat → List SimpleLongPollBotS
  | 0, _ => []
  | n + 1, fresh =>
    (SimpleLongPollBot.init fresh).1 :: mkBots n (SimpleLongPollBot.init fresh).2

/-- The ids of the per-instance collaborators of one bot. -/
def collaboratorIds (b : SimpleLongPollBotS) : List Nat :=
  [b.token_storage, b.dispatcher, b.lp_extension, b.router]

/-- The Python set contract at one input: list(set(xs)) computed by the
iteration function f is duplicate-free and has exactly the members of
xs; nothing constrains its order, which in CPython is hash-table order. -/
def isPySetOn (f : List Nat → List Nat) (xs : List Nat) : Prop :=
  (f xs).Nodup ∧ (∀ h ∈ xs, h ∈ f xs) ∧ (∀ h ∈ f xs, h ∈ xs)

instance (f : List Nat → List Nat) (xs : List Nat) :
    Decidable (isPySetOn f xs) :=
  inferInstanceAs (Decidable
    ((f xs).Nodup ∧ (∀ h ∈ xs, h ∈ f xs) ∧ (∀ h ∈ f xs, h ∈ xs)))

/-- ClonesBot.run_all_bots from the source, restricted to its handler
mutation: for each clone it extends the clone's handler list with the
base router's handlers and replaces it by list(set(...)), here the
iteration function setIter applied to the concatenation. The base bot
and every clone are then run, each on its own collaborators. -/
def ClonesBot.run_all_bots (setIter : List Nat → List Nat)
    (base : SimpleLongPollBotS) (clones : List SimpleLongPollBotS) :
    List SimpleLongPollBotS :=
  clones.map (fun clone =>
    { clone with handlers := setIter (clone.handlers ++ base.handlers) })

/-- A hash-order witness: an iteration function satisfying the Python set
contract whose order reverses insertion order after deduplication. -/
def revDedup (xs : List Nat) : List Nat :=
  xs.dedup.reverse

/-- Helper: the collaborator ids of bots built by consecutive __init__
calls form the contiguous range starting at the first fresh id. -/
theorem mkBots_flatMap_collaboratorIds (n fresh : Nat) :
    (mkBots n fresh).flatMap collaboratorIds = List.range' fresh (4 * n) := by
  induction n generalizing fresh with
  | zero => rfl
  | succ n ih =>
    show collaboratorIds (SimpleLongPollBot.init fresh).1 ++
        (mkBots n (fresh + 4)).flatMap collaboratorIds = _
    rw [ih]
    have h4 : collaboratorIds (SimpleLongPollBot.init fresh).1 =
        List.range' fresh 4 := by
      simp [collaboratorIds, SimpleLongPollBot.init, List.range']
    rw [h4]
    have := List.range'_append fresh 4 (4 * n) 1
    simp only [Nat.one_mul] at this
    rw [this, Nat.mul_succ]

/-- C1. ClonesBot.run_all_bots replaces each clone's handler list by
list(set(clone.handlers + base.handlers)).  Python set iteration order is
hash-table order, not insertion order: here an iteration function that
satisfies the set contract (duplicate-free, same membership) reverses the
registration order, so a clone of a base with handlers registered in the
order 1, 2 ends up with handler sequence 2, 1 — find_match on the clone
considers the records in an order different from registration order,
against the determinism invariant the spec states. -/
theorem ClonesBot.run_all_bots_breaks_registration_order :
    isPySetOn revDedup ([] ++ [1, 2]) ∧
    (ClonesBot.run_all_bots revDedup
        { token_storage := 0, dispatcher := 1, lp_extension := 2,
          router := 3, handlers := [1, 2] }
        [{ token_storage := 4, dispatcher := 5, lp_extension := 6,
           router := 7, handlers := [] }]).map SimpleLongPollBotS.handlers =
      [[2, 1]] ∧
    ([[2, 1]] : List (List Nat)) ≠ [[1, 2]] := by
  refine ⟨by decide, ?_, by decide⟩
  decide

/-- C2. After ClonesBot.run_all_bots, for any iteration function obeying
the Python set contract on the merged list, each clone's handler list is
a deduplicated union of its own and the base router's handlers: the
updated clone is in the output, every base handler and every original
clone handler is present, the list is duplicate-free, and every member
occurs exactly once and comes from the clone's or the base's handlers —
in particular a record registered twice is left with one occurrence. -/
theorem ClonesBot.run_all_bots_dedup_union (setIter : List Nat → List Nat)
    (base clone : SimpleLongPollBotS) (clones : List SimpleLongPollBotS)
    (hset : isPySetOn setIter (clone.handlers ++ base.handlers))
    (hc : clone ∈ clones) :
    { clone with handlers := setIter (clone.handlers ++ base.handlers) } ∈
      ClonesBot.run_all_bots setIter base clones ∧
    (∀ h ∈ base.handlers, h ∈ setIter (clone.handlers ++ base.handlers)) ∧
    (∀ h ∈ clone.handlers, h ∈ setIter (clone.handlers ++ base.handlers)) ∧
    (setIter (clone.handlers ++ base.handlers)).Nodup ∧
    (∀ h ∈ setIter (clone.handlers ++ base.handlers),
      (setIter (clone.handlers ++ base.handlers)).count h = 1 ∧
        h ∈ clone.handlers ++ base.handlers) := by
  obtain ⟨hnd, hin, hout⟩ := hset
  refine ⟨?_, ?_, ?_, hnd, ?_⟩
  · exact List.mem_map_of_mem _ hc
  · intro h hh
    exact hin h (List.mem_append_right _ hh)
  · intro h hh
    exact hin h (List.mem_append_left _ hh)
  · intro h hh
    exact ⟨List.count_eq_one_of_mem hnd hh, hout h hh⟩

/-- C2 witness: with List.dedup as the set iteration function, a clone
with handlers 2, 3 merged with a base whose handler 2 was registered
twice gets each of 1, 2, 3 exactly present and no duplicates. -/
theorem ClonesBot.run_all_bots_dedup_union_witness :
    (∀ h ∈ [1, 2, 2], h ∈ List.dedup ([2, 3] ++ [1, 2, 2])) ∧
    (List.dedup ([2, 3] ++ [1, 2, 2])).Nodup :=
  ⟨(ClonesBot.run_all_bots_dedup_union List.dedup
      { token_storage := 0, dispatcher := 1, lp_extension := 2,
        router := 3, handlers := [1, 2, 2] }
      { token_storage := 4, dispatcher := 5, lp_extension := 6,
        router := 7, handlers := [2, 3] }
      [{ token_storage := 4, dispatcher := 5, lp_extension := 6,
         router := 7, handlers := [2, 3] }]
      (by decide) (by decide)).2.1,
   (ClonesBot.run_all_bots_dedup_union List.dedup
      { token_storage := 0, dispatcher := 1, lp_extension := 2,
        router := 3, handlers := [1, 2, 2] }
      { token_storage := 4, dispatcher := 5, lp_extension := 6,
        router := 7, handlers := [2, 3] }
      [{ token_storage := 4, dispatcher := 5, lp_extension := 6,
         router := 7, handlers := [2, 3] }]
      (by decide) (by decide)).2.2.2.1⟩

/-- C3. SimpleLongPollBot.run awaits cache_potential_tokens to completion
and only then awaits the long-poll extension's start: the action trace of
run is exactly the token-caching action followed by the poll start, the
token-caching action occurs exactly once per run call, the state start is
invoked on already has credentials resolved, and the final state has both
credentials resolved and polling started. -/
theorem SimpleLongPollBot.run_caches_tokens_before_start (s : DispatcherState) :
    (SimpleLongPollBot.run s).2 =
      [RunAction.cache_potential_tokens, RunAction.lp_start] ∧
    (SimpleLongPollBot.run s).2.count RunAction.cache_potential_tokens = 1 ∧
    (Dispatcher.cache_potential_tokens s).1.potential_tokens_cached = true ∧
    (SimpleLongPollBot.run s).1 =
      { potential_tokens_cached := true, polling_started := true } := by
  refine ⟨rfl, ?_, rfl, rfl⟩
  rfl

/-- C4. The record registered by message_handler goes through the whole
registration surface: the record built by the decorator body is readied
and carries the wrapped callback, message_handler's register call always
succeeds and appends exactly that readied record, while register rejects
(returns none for) any record whose readied flag is not set. -/
theorem SimpleLongPollBot.message_handler_registers_only_readied {α : Type}
    (handlers : List (HandlerRecord α)) (filters : List Filter)
    (func : UserFunc α) :
    (message_handler_build filters func).readied = true ∧
    (message_handler_build filters func).callback =
      some (SimpleBotCallback.mk func) ∧
    message_handler handlers filters func =
      some (handlers ++ [message_handler_build filters func]) ∧
    (∀ r : HandlerRecord α, r.readied = false →
      HandlerRegistrar.register handlers r = none) := by
  refine ⟨rfl, rfl, rfl, ?_⟩
  intro r h
  simp [HandlerRegistrar.register, h]

/-- C4 witness: register rejects a concrete unready record, and
message_handler succeeds on a concrete callback. -/
theorem SimpleLongPollBot.message_handler_registers_only_readied_witness :
    HandlerRegistrar.register ([] : List (HandlerRecord Nat))
      { filters := [], callback := none, readied := false } = none ∧
    message_handler ([] : List (HandlerRecord Nat)) []
        (UserFunc.sync (fun _ => 0)) =
      some [message_handler_build [] (UserFunc.sync (fun _ => 0))] :=
  ⟨(SimpleLongPollBot.message_handler_registers_only_readied []
      [] (UserFunc.sync (fun _ => 0))).2.2.2
      { filters := [], callback := none, readied := false } rfl,
   (SimpleLongPollBot.message_handler_registers_only_readied []
      [] (UserFunc.sync (fun _ => 0))).2.2.1⟩

/-- C5. SimpleBotCallback.execute invokes the user function on the
wrapped event and returns a plain result uniformly for both callback
shapes: a coroutine function's awaitable is awaited to its value, a
synchronous function is called directly, iscoroutinefunction tells the
two shapes apart, and registration wraps the user function in
SimpleBotCallback so the adapter sits on every registered record. -/
theorem SimpleBotCallback.execute_uniform_invoke {α : Type}
    (f : BotEvent → α) (g : BotEvent → Awaitable α) (filters : List Filter)
    (event : BotEvent) :
    SimpleBotCallback.execute { func := UserFunc.sync f } event =
      f (SimpleBotEvent event) ∧
    SimpleBotCallback.execute { func := UserFunc.coroutine g } event =
      awaitValue (g (SimpleBotEvent event)) ∧
    iscoroutinefunction (UserFunc.sync f) = false ∧
    iscoroutinefunction (UserFunc.coroutine g) = true ∧
    (message_handler_build filters (UserFunc.sync f)).callback =
      some { func := UserFunc.sync f } :=
  ⟨rfl, rfl, rfl, rfl, rfl⟩

/-- C6. Distinct bot instances built by consecutive __init__ calls have
pairwise distinct collaborators (token storage, dispatcher, long-poll
extension, router ids are all different, across instances and within
one), and ClonesBot.run_all_bots leaves every clone's collaborators
untouched — it changes only the handler lists. -/
theorem SimpleLongPollBot.instances_have_distinct_collaborators
    (n fresh : Nat) (setIter : List Nat → List Nat)
    (base : SimpleLongPollBotS) (clones : List SimpleLongPollBotS) :
    ((mkBots n fresh).flatMap collaboratorIds).Nodup ∧
    (ClonesBot.run_all_bots setIter base clones).map
        (fun c => (c.token_storage, c.dispatcher, c.lp_extension, c.router)) =
      clones.map
        (fun c => (c.token_storage, c.dispatcher, c.lp_extension, c.router)) := by
  constructor
  · rw [mkBots_flatMap_collaboratorIds]
    exact List.nodup_range' fresh (4 * n)
  · simp [ClonesBot.run_all_bots, List.map_map, Function.comp]

/-- C7. Wrapping a BotEvent into a SimpleBotEvent preserves the event's
content exactly: the wrapped event's raw payload object and API context
equal the original's, and the wrapped event equals the original event —
wrapping is a pure construction that mutates nothing. -/
theorem SimpleBotEvent.wrap_preserves_event (event : BotEvent) :
    (SimpleBotEvent event).object = event.object ∧
    (SimpleBotEvent event).api_ctx = event.api_ctx ∧
    SimpleBotEvent event = event :=
  ⟨rfl, rfl, rfl⟩

/-- C8. The record built by message_handler carries the user filters
followed by an event-type filter for MESSAGE_NEW as the last filter, and
consequently the record can only match an event whose type tag is
MESSAGE_NEW. -/
theorem SimpleLongPollBot.message_handler_appends_message_new_filter
    {α : Type} (filters : List Filter) (func : UserFunc α) :
    (message_handler_build filters func).filters =
      filters ++ [Filter.eventType BotEventType.MESSAGE_NEW] ∧
    (∀ ev : BotEvent,
      recordMatches (message_handler_build filters func) ev = true →
        ev.object.type = BotEventType.MESSAGE_NEW) := by
  refine ⟨rfl, ?_⟩
  intro ev h
  simp only [recordMatches, message_handler_build, HandlerRegistrar.new,
    HandlerRecord.with_filters, HandlerRecord.handle, HandlerRecord.ready,
    List.nil_append, List.all_append, Bool.and_eq_true, List.all_cons,
    List.all_nil, Bool.and_true, Filter.check, decide_eq_true_eq] at h
  exact h.2

/-- C8 witness: a concrete MESSAGE_NEW event matches the bare
message_handler record, and the theorem yields its type tag. -/
theorem SimpleLongPollBot.message_handler_appends_message_new_filter_witness :
    ({ object := { type := BotEventType.MESSAGE_NEW,
                   object := { message := { peer_id := 1, text := "hi" } } },
       api_ctx := 0 } : BotEvent).object.type = BotEventType.MESSAGE_NEW :=
  (SimpleLongPollBot.message_handler_appends_message_new_filter []
      (UserFunc.sync (fun _ => (0 : Nat)))).2
    { object := { type := BotEventType.MESSAGE_NEW,
                  object := { message := { peer_id := 1, text := "hi" } } },
      api_ctx := 0 } rfl

/-- C9. SimpleBotEvent.answer issues exactly one messages.send call for
every combination of optional arguments, and that call's peer_id is the
peer identifier of the event's underlying message while its random_id is
always 0. -/
theorem SimpleBotEvent.answer_single_send_to_event_peer (self : BotEvent)
    (message keyboard : Option String) (attachment : Option String)
    (payload : Option String) (forward_messages : Option (List Int))
    (dont_parse_links disable_mentions : Option Bool)
    (sticker_id : Option Int) (domain : Option String)
    (lat long : Option Int) (reply_to group_id : Option Int) :
    (SimpleBotEvent.answer self message keyboard attachment payload
        forward_messages dont_parse_links disable_mentions sticker_id
        domain lat long reply_to group_id).length = 1 ∧
    (SimpleBotEvent.answer self message keyboard attachment payload
        forward_messages dont_parse_links disable_mentions sticker_id
        domain lat long reply_to group_id).map
      (fun c => (c.peer_id, c.random_id)) =
      [(self.object.object.message.peer_id, 0)] :=
  ⟨rfl, rfl⟩

/-- C10. The decorator produced by message_handler is the identity on the
decorated callable: it returns the original function itself, while as a
side effect the readied record was appended to the handler list. -/
theorem SimpleLongPollBot.message_handler_decorator_identity {α : Type}
    (handlers : List (HandlerRecord α)) (filters : List Filter)
    (func : UserFunc α) :
    (message_handler_decorator handlers filters func).2 = func ∧
    (message_handler_decorator handlers filters func).1 =
      some (handlers ++ [message_handler_build filters func]) :=
  ⟨rfl, rfl⟩

end VKWave
